import Mathlib

/-!
Shallow embedding of the maintenance-mode gate of
`packages/api/src/maintenance.js` from web3.storage.

The JavaScript module exports `withMode(handler, mode)`, a middleware that
wraps a request handler with a permission check: the handler declares the
mode (capability string over read/write bits) it requires, and every
incoming request is checked against the runtime mode `env.MODE`.  Thrown
JavaScript errors (`Error`, `HTTPError`, `MaintenanceError`) are embedded
as an explicit error type carried in `Except`.
-/

namespace Web3Maintenance

/-- The error values the module can throw.  `plain` is a bare JavaScript
`Error`, `httpError` an `HTTPError` with message and status code, and
`maintenanceError` a `MaintenanceError` (both imported from `errors.js`). -/
inductive JsError where
  | plain (msg : String)
  | httpError (msg : String) (status : Nat)
  | maintenanceError (msg : String)
deriving DecidableEq

/-- `export const READ_WRITE = 'rw'` -/
def READ_WRITE : String := "rw"

/-- `export const READ_ONLY = 'r-'` -/
def READ_ONLY : String := "r-"

/-- `export const NO_READ_OR_WRITE = '--'` -/
def NO_READ_OR_WRITE : String := "--"

/-- `export const modes = Object.freeze([NO_READ_OR_WRITE, READ_ONLY, READ_WRITE])` -/
def modes : List String := [NO_READ_OR_WRITE, READ_ONLY, READ_WRITE]

/-- `export const DEFAULT_MODE = READ_WRITE` -/
def DEFAULT_MODE : String := READ_WRITE

/-- Message of the `HTTPError` thrown by `modeBits` on a non-canonical mode
string: in JS, `invalid maintenance mode, wanted one of ${modes} but got "${m}"`,
where the array interpolates as a comma-separated list. -/
def invalidModeMsg (m : String) : String :=
  "invalid maintenance mode, wanted one of " ++ String.intercalate "," modes
    ++ " but got \"" ++ m ++ "\""

/-- `modeBits(m)`: throws an `HTTPError` with status 503 when `m` is not one
of the three canonical modes, otherwise returns `m.split('')` (the list of
characters of `m`). -/
def modeBits (m : String) : Except JsError (List Char) :=
  if modes.contains m then Except.ok m.data
  else Except.error (JsError.httpError (invalidModeMsg m) 503)

/-- The callback of `modeBits(mode).every((bit, i) => ...)`: a required bit is
satisfied when it is the don't-care character, or when the runtime mode has
exactly that bit at the same index (a JS out-of-range index gives `undefined`,
which compares unequal to any character, hence `none` on the left). -/
def bitSatisfied (currentModeBits : List Char) (bit : Char) (i : Nat) : Bool :=
  if bit = '-' then true else currentModeBits.get? i == some bit

/-- `Array.prototype.every` over the required bits, threading the index. -/
def everyBitFrom (currentModeBits : List Char) : List Char → Nat → Bool
  | [], _ => true
  | bit :: rest, i =>
      bitSatisfied currentModeBits bit i && everyBitFrom currentModeBits rest (i + 1)

/-- The `enabled()` closure inside `withMode`: decompose the runtime mode
first (so an invalid runtime mode throws before the requirement is even
split), then the requirement, and check every required bit.  The JS
evaluation order — `currentModeBits` is computed before `modeBits(mode)` —
is preserved by the nesting of the matches. -/
def enabled (mode : String) (currentMode : String) : Except JsError Bool :=
  match modeBits currentMode with
  | Except.error e => Except.error e
  | Except.ok currentModeBits =>
      match modeBits mode with
      | Except.error e => Except.error e
      | Except.ok bits => Except.ok (everyBitFrom currentModeBits bits 0)

/-- The status-page URL baked into `maintenanceHandler`. -/
def statusUrl : String := "https://status.web3.storage"

/-- The fixed message of the `MaintenanceError`. -/
def maintenanceMessage : String :=
  "API undergoing maintenance, check " ++ statusUrl ++ " for more info"

/-- `maintenanceHandler()`: always throws a `MaintenanceError` with the fixed
status-page message. -/
def maintenanceHandler {Resp : Type} : Except JsError Resp :=
  Except.error (JsError.maintenanceError maintenanceMessage)

/-- The environment collaborator: the gate reads only its `MODE` field; any
other per-request environment data is opaque payload. -/
structure Env (ρ : Type) where
  MODE : String
  rest : ρ

/-- The closure returned by `withMode`: per request, read `env.MODE` fresh,
evaluate `enabled()`, and either delegate to the wrapped handler with the
original arguments or fall through to `maintenanceHandler()`.  An error
thrown inside `enabled()` (the invalid-configuration `HTTPError`)
propagates out unchanged. -/
def gateBody {Req Ctx Resp ρ : Type}
    (handler : Req → Env ρ → Ctx → Except JsError Resp) (mode : String)
    (request : Req) (env : Env ρ) (ctx : Ctx) : Except JsError Resp :=
  match enabled mode env.MODE with
  | Except.error e => Except.error e
  | Except.ok true => handler request env ctx
  | Except.ok false => maintenanceHandler

/-- `withMode(handler, mode)`: throws `new Error('invalid mode')` at wrap
time when the requirement is `NO_READ_OR_WRITE`, otherwise returns the
gated handler with the same calling contract as the input handler. -/
def withMode {Req Ctx Resp ρ : Type}
    (handler : Req → Env ρ → Ctx → Except JsError Resp) (mode : String) :
    Except JsError (Req → Env ρ → Ctx → Except JsError Resp) :=
  if mode = NO_READ_OR_WRITE then
    Except.error (JsError.plain "invalid mode")
  else
    Except.ok (gateBody handler mode)

/-- The read bit of a mode string (its first character, if any). -/
def readBit (m : String) : Option Char := m.data.get? 0

/-- The write bit of a mode string (its second character, if any). -/
def writeBit (m : String) : Option Char := m.data.get? 1

/-- Boolean check that an `Except` value is a success. -/
def isOkB {ε α : Type} : Except ε α → Bool
  | Except.ok _ => true
  | Except.error _ => false

/-- Observable classification of one invocation of the gated handler. -/
inductive Outcome where
  | allowed
  | maintenanceBlocked
  | configRejected
  | other
deriving DecidableEq

/-- Classify the result of one invocation of the gated handler by the kind
of value it produced. -/
def classifyOutcome {Resp : Type} : Except JsError Resp → Outcome
  | Except.ok _ => Outcome.allowed
  | Except.error (JsError.maintenanceError _) => Outcome.maintenanceBlocked
  | Except.error (JsError.httpError _ _) => Outcome.configRejected
  | Except.error (JsError.plain _) => Outcome.other

/-- The gate decision as a pure function of the pair
(requirement, runtime mode) alone. -/
def gateDecision (req currentMode : String) : Outcome :=
  match enabled req currentMode with
  | Except.ok true => Outcome.allowed
  | Except.ok false => Outcome.maintenanceBlocked
  | Except.error (JsError.httpError _ _) => Outcome.configRejected
  | Except.error (JsError.maintenanceError _) => Outcome.maintenanceBlocked
  | Except.error (JsError.plain _) => Outcome.other

/-- Modelled from the spec: `errors.js` is not among the reviewed sources;
per the spec, the maintenance condition and the configuration error both
carry a service-unavailable-class (503) signal, while the wrap-time
construction error is a generic error not surfaced over HTTP. -/
def errorStatus : JsError → Option Nat
  | JsError.plain _ => none
  | JsError.httpError _ s => Option.some s
  | JsError.maintenanceError _ => Option.some 503

end Web3Maintenance

namespace Web3Maintenance

example : enabled READ_ONLY NO_READ_OR_WRITE = Except.ok false := rfl
example : enabled READ_ONLY READ_ONLY = Except.ok true := rfl
example : enabled READ_ONLY READ_WRITE = Except.ok true := rfl
example : enabled READ_WRITE NO_READ_OR_WRITE = Except.ok false := rfl
example : enabled READ_WRITE READ_ONLY = Except.ok false := rfl
example : enabled READ_WRITE READ_WRITE = Except.ok true := rfl
example : enabled READ_ONLY "xx"
    = Except.error (JsError.httpError (invalidModeMsg "xx") 503) := rfl
example : invalidModeMsg "xx"
    = "invalid maintenance mode, wanted one of --,r-,rw but got \"xx\"" := by decide
example : maintenanceMessage
    = "API undergoing maintenance, check https://status.web3.storage for more info" := by
  decide

/-- Helper: with a handler that never throws, the classification of one
gated invocation is exactly the pure gate decision of the pair
(requirement, runtime mode read from the env of that call). -/
theorem classify_gateBody_eq_gateDecision {Req Ctx Resp ρ : Type}
    (handler : Req → Env ρ → Ctx → Except JsError Resp)
    (hok : ∀ r e c, isOkB (handler r e c) = true)
    (req : String) (request : Req) (env : Env ρ) (ctx : Ctx) :
    classifyOutcome (gateBody handler req request env ctx)
      = gateDecision req env.MODE := by
  unfold gateBody gateDecision
  cases he : enabled req env.MODE with
  | error e => cases e <;> rfl
  | ok b =>
      cases b with
      | false => rfl
      | true =>
          have h := hok request env ctx
          cases hh : handler request env ctx with
          | ok v => rfl
          | error e => rw [hh] at h; simp [isOkB] at h

/-- C1: for every requirement in `{r-, rw}` and runtime mode in
`{--, r-, rw}`, wrapping succeeds, and the gated handler delegates to the
wrapped handler exactly when (the requirement's read-bit is the don't-care
character or the mode's read-bit is `r`) and (the requirement's write-bit is
don't-care or the mode's write-bit is `w`); otherwise it raises the
maintenance condition. -/
theorem c1_gate_permits_iff_bits {Req Ctx Resp ρ : Type}
    (handler : Req → Env ρ → Ctx → Except JsError Resp)
    (req m : String)
    (hreq : req = READ_ONLY ∨ req = READ_WRITE)
    (hm : m = NO_READ_OR_WRITE ∨ m = READ_ONLY ∨ m = READ_WRITE)
    (request : Req) (env : Env ρ) (ctx : Ctx) (henv : env.MODE = m) :
    withMode handler req = Except.ok (gateBody handler req) ∧
    gateBody handler req request env ctx =
      (if (readBit req = some '-' ∨ readBit m = some 'r') ∧
          (writeBit req = some '-' ∨ writeBit m = some 'w')
       then handler request env ctx
       else Except.error (JsError.maintenanceError maintenanceMessage)) := by
  rcases hreq with rfl | rfl <;> rcases hm with rfl | rfl | rfl <;>
    exact ⟨rfl, by unfold gateBody; rw [henv]; rfl⟩

/-- Witness for C1: requirement `r-` evaluated under runtime mode `rw`. -/
theorem c1_gate_permits_iff_bits_witness :
    withMode (fun (_ : Unit) (_ : Env Unit) (_ : Unit) => Except.ok (0 : Nat)) READ_ONLY
        = Except.ok (gateBody (fun _ _ _ => Except.ok 0) READ_ONLY) ∧
    gateBody (fun (_ : Unit) (_ : Env Unit) (_ : Unit) => Except.ok (0 : Nat)) READ_ONLY
        () (Env.mk READ_WRITE ()) ()
      = (if (readBit READ_ONLY = some '-' ∨ readBit READ_WRITE = some 'r') ∧
            (writeBit READ_ONLY = some '-' ∨ writeBit READ_WRITE = some 'w')
         then Except.ok 0
         else Except.error (JsError.maintenanceError maintenanceMessage)) :=
  c1_gate_permits_iff_bits (fun _ _ _ => Except.ok 0) READ_ONLY READ_WRITE
    (Or.inl rfl) (Or.inr (Or.inr rfl)) () (Env.mk READ_WRITE ()) () rfl

/-- C2: wrapping any handler with requirement `--` fails at wrap time with
the construction error `Error('invalid mode')` and never yields a usable
wrapped handler. -/
theorem c2_wrap_time_rejection {Req Ctx Resp ρ : Type}
    (handler : Req → Env ρ → Ctx → Except JsError Resp) :
    withMode handler NO_READ_OR_WRITE = Except.error (JsError.plain "invalid mode") ∧
    isOkB (withMode handler NO_READ_OR_WRITE) = false :=
  ⟨rfl, rfl⟩

/-- C3: with a valid requirement, an invocation under a non-canonical
runtime mode returns the invalid-configuration `HTTPError` with status 503
for every handler (so the wrapped handler is not invoked and no bit
comparison is reached), and the error message names the offending value and
the canonical mode list. -/
theorem c3_invalid_runtime_mode {Req Ctx Resp ρ : Type}
    (handler : Req → Env ρ → Ctx → Except JsError Resp)
    (req m : String)
    (hreq : req = READ_ONLY ∨ req = READ_WRITE)
    (hm : modes.contains m = false)
    (request : Req) (env : Env ρ) (ctx : Ctx) (henv : env.MODE = m) :
    gateBody handler req request env ctx
      = Except.error (JsError.httpError (invalidModeMsg m) 503) ∧
    invalidModeMsg m
      = "invalid maintenance mode, wanted one of --,r-,rw but got \"" ++ m ++ "\"" := by
  refine ⟨?_, rfl⟩
  unfold gateBody enabled modeBits
  rw [henv, hm]
  rfl

/-- Witness for C3: requirement `r-`, runtime mode `"xx"`. -/
theorem c3_invalid_runtime_mode_witness :
    gateBody (fun (_ : Unit) (_ : Env Unit) (_ : Unit) => Except.ok (0 : Nat)) READ_ONLY
        () (Env.mk "xx" ()) ()
      = Except.error (JsError.httpError (invalidModeMsg "xx") 503) ∧
    invalidModeMsg "xx"
      = "invalid maintenance mode, wanted one of --,r-,rw but got \"" ++ "xx" ++ "\"" :=
  c3_invalid_runtime_mode (fun _ _ _ => Except.ok 0) READ_ONLY "xx"
    (Or.inl rfl) rfl () (Env.mk "xx" ()) () rfl

/-- C4: when the requirement is valid, the runtime mode canonical, and the
requirement is not satisfied, every handler's gated invocation returns the
maintenance condition — whose message is exactly the fixed status-page
string — carrying the service-unavailable (503) class, without invoking the
wrapped handler. -/
theorem c4_maintenance_block {Req Ctx Resp ρ : Type}
    (handler : Req → Env ρ → Ctx → Except JsError Resp)
    (req m : String)
    (hreq : req = READ_ONLY ∨ req = READ_WRITE)
    (hm : m = NO_READ_OR_WRITE ∨ m = READ_ONLY ∨ m = READ_WRITE)
    (hblocked : enabled req m = Except.ok false)
    (request : Req) (env : Env ρ) (ctx : Ctx) (henv : env.MODE = m) :
    gateBody handler req request env ctx
      = Except.error (JsError.maintenanceError maintenanceMessage) ∧
    maintenanceMessage
      = "API undergoing maintenance, check https://status.web3.storage for more info" ∧
    errorStatus (JsError.maintenanceError maintenanceMessage) = Option.some 503 := by
  refine ⟨?_, rfl, rfl⟩
  unfold gateBody
  rw [henv, hblocked]
  rfl

/-- Witness for C4: requirement `rw` under runtime mode `r-` is blocked. -/
theorem c4_maintenance_block_witness :
    gateBody (fun (_ : Unit) (_ : Env Unit) (_ : Unit) => Except.ok (0 : Nat)) READ_WRITE
        () (Env.mk READ_ONLY ()) ()
      = Except.error (JsError.maintenanceError maintenanceMessage) ∧
    maintenanceMessage
      = "API undergoing maintenance, check https://status.web3.storage for more info" ∧
    errorStatus (JsError.maintenanceError maintenanceMessage) = Option.some 503 :=
  c4_maintenance_block (fun _ _ _ => Except.ok 0) READ_WRITE READ_ONLY
    (Or.inr rfl) (Or.inr (Or.inl rfl)) rfl () (Env.mk READ_ONLY ()) () rfl

/-- C5: for a permitted request the gated handler delegates to the wrapped
handler with the original `(request, env, ctx)` arguments unchanged and
returns its result verbatim. -/
theorem c5_identity_pass_through {Req Ctx Resp ρ : Type}
    (handler : Req → Env ρ → Ctx → Except JsError Resp)
    (req : String) (hreq : req ≠ NO_READ_OR_WRITE)
    (request : Req) (env : Env ρ) (ctx : Ctx)
    (hallowed : enabled req env.MODE = Except.ok true) :
    withMode handler req = Except.ok (gateBody handler req) ∧
    gateBody handler req request env ctx = handler request env ctx := by
  constructor
  · unfold withMode
    rw [if_neg hreq]
  · unfold gateBody
    rw [hallowed]

/-- Witness for C5: an echoing handler receives the original arguments and
its result is returned unchanged. -/
theorem c5_identity_pass_through_witness :
    withMode (fun (r : Nat) (e : Env Nat) (c : Nat) => Except.ok (r, e.MODE, e.rest, c))
        READ_ONLY
      = Except.ok (gateBody (fun r e c => Except.ok (r, e.MODE, e.rest, c)) READ_ONLY) ∧
    gateBody (fun (r : Nat) (e : Env Nat) (c : Nat) => Except.ok (r, e.MODE, e.rest, c))
        READ_ONLY 5 (Env.mk READ_WRITE 9) 3
      = Except.ok (5, READ_WRITE, 9, 3) :=
  c5_identity_pass_through (fun r e c => Except.ok (r, e.MODE, e.rest, c)) READ_ONLY
    (by decide) 5 (Env.mk READ_WRITE 9) 3 rfl

/-- C6: the wrap-time construction error, the invalid-configuration error
and the maintenance condition are pairwise distinct error kinds, and an
error arising inside the per-request decision propagates out of the gate
unchanged. -/
theorem c6_error_kinds_distinct {Req Ctx Resp ρ : Type}
    (handler : Req → Env ρ → Ctx → Except JsError Resp)
    (req : String) (request : Req) (env : Env ρ) (ctx : Ctx)
    (e : JsError) (he : enabled req env.MODE = Except.error e) :
    gateBody handler req request env ctx = Except.error e ∧
    JsError.plain "invalid mode" ≠ JsError.httpError (invalidModeMsg env.MODE) 503 ∧
    JsError.httpError (invalidModeMsg env.MODE) 503
      ≠ JsError.maintenanceError maintenanceMessage ∧
    JsError.plain "invalid mode" ≠ JsError.maintenanceError maintenanceMessage := by
  refine ⟨?_, by simp, by simp, by simp⟩
  unfold gateBody
  rw [he]

/-- Witness for C6: the configuration error raised under runtime mode
`"xx"` propagates, and the three error kinds are pairwise distinct. -/
theorem c6_error_kinds_distinct_witness :
    gateBody (fun (_ : Unit) (_ : Env Unit) (_ : Unit) => Except.ok (0 : Nat)) READ_ONLY
        () (Env.mk "xx" ()) ()
      = Except.error (JsError.httpError (invalidModeMsg "xx") 503) ∧
    JsError.plain "invalid mode"
      ≠ JsError.httpError (invalidModeMsg (Env.mk "xx" ()).MODE) 503 ∧
    JsError.httpError (invalidModeMsg (Env.mk "xx" ()).MODE) 503
      ≠ JsError.maintenanceError maintenanceMessage ∧
    JsError.plain "invalid mode" ≠ JsError.maintenanceError maintenanceMessage :=
  c6_error_kinds_distinct (fun _ _ _ => Except.ok 0) READ_ONLY () (Env.mk "xx" ()) ()
    (JsError.httpError (invalidModeMsg "xx") 503) rfl

/-- C7: with a handler that never throws, the allow/block/config-error
classification of a gated invocation is a pure function of the pair
(requirement, runtime mode): two calls with the same `MODE` field, even with
different requests, env payloads and contexts, classify identically. -/
theorem c7_deterministic_decision {Req Ctx Resp ρ : Type}
    (handler : Req → Env ρ → Ctx → Except JsError Resp)
    (hok : ∀ r e c, isOkB (handler r e c) = true)
    (req : String)
    (r₁ : Req) (env₁ : Env ρ) (c₁ : Ctx) (r₂ : Req) (env₂ : Env ρ) (c₂ : Ctx)
    (hm : env₁.MODE = env₂.MODE) :
    classifyOutcome (gateBody handler req r₁ env₁ c₁)
      = classifyOutcome (gateBody handler req r₂ env₂ c₂) := by
  rw [classify_gateBody_eq_gateDecision handler hok req r₁ env₁ c₁,
    classify_gateBody_eq_gateDecision handler hok req r₂ env₂ c₂, hm]

/-- Witness for C7: two calls under the same runtime mode `r-` but with
different env payloads classify identically. -/
theorem c7_deterministic_decision_witness :
    classifyOutcome (gateBody
        (fun (_ : Unit) (_ : Env Nat) (_ : Unit) => Except.ok (0 : Nat)) READ_WRITE
        () (Env.mk READ_ONLY 0) ())
      = classifyOutcome (gateBody
        (fun (_ : Unit) (_ : Env Nat) (_ : Unit) => Except.ok (0 : Nat)) READ_WRITE
        () (Env.mk READ_ONLY 1) ()) :=
  c7_deterministic_decision (fun _ _ _ => Except.ok 0) (fun _ _ _ => rfl) READ_WRITE
    () (Env.mk READ_ONLY 0) () () (Env.mk READ_ONLY 1) () rfl

/-- C8: the runtime mode is read fresh from the `MODE` field of the env
passed to each call, never captured at wrap time: each call's
classification equals the pure gate decision at that call's own `MODE`. -/
theorem c8_mode_read_per_call {Req Ctx Resp ρ : Type}
    (handler : Req → Env ρ → Ctx → Except JsError Resp)
    (hok : ∀ r e c, isOkB (handler r e c) = true)
    (req : String)
    (r₁ : Req) (env₁ : Env ρ) (c₁ : Ctx) (r₂ : Req) (env₂ : Env ρ) (c₂ : Ctx) :
    classifyOutcome (gateBody handler req r₁ env₁ c₁) = gateDecision req env₁.MODE ∧
    classifyOutcome (gateBody handler req r₂ env₂ c₂) = gateDecision req env₂.MODE :=
  ⟨classify_gateBody_eq_gateDecision handler hok req r₁ env₁ c₁,
   classify_gateBody_eq_gateDecision handler hok req r₂ env₂ c₂⟩

/-- Witness for C8: the same wrapped handler allows under `MODE = rw` and is
blocked under `MODE = --`, each per the env of that call. -/
theorem c8_mode_read_per_call_witness :
    classifyOutcome (gateBody
        (fun (_ : Unit) (_ : Env Unit) (_ : Unit) => Except.ok (0 : Nat)) READ_WRITE
        () (Env.mk READ_WRITE ()) ())
      = gateDecision READ_WRITE (Env.mk READ_WRITE ()).MODE ∧
    classifyOutcome (gateBody
        (fun (_ : Unit) (_ : Env Unit) (_ : Unit) => Except.ok (0 : Nat)) READ_WRITE
        () (Env.mk NO_READ_OR_WRITE ()) ())
      = gateDecision READ_WRITE (Env.mk NO_READ_OR_WRITE ()).MODE :=
  c8_mode_read_per_call (fun _ _ _ => Except.ok 0) (fun _ _ _ => rfl) READ_WRITE
    () (Env.mk READ_WRITE ()) () () (Env.mk NO_READ_OR_WRITE ()) ()

/-- C9: for every requirement other than `--`, wrapping returns (without an
error, touching neither the handler nor any environment) the gated handler,
which has the same calling contract as the input handler. -/
theorem c9_wrap_returns_gated_handler {Req Ctx Resp ρ : Type}
    (handler : Req → Env ρ → Ctx → Except JsError Resp)
    (mode : String) (hmode : mode ≠ NO_READ_OR_WRITE) :
    withMode handler mode = Except.ok (gateBody handler mode) := by
  unfold withMode
  rw [if_neg hmode]

/-- Witness for C9: wrapping with requirement `rw` succeeds. -/
theorem c9_wrap_returns_gated_handler_witness :
    withMode (fun (_ : Unit) (_ : Env Unit) (_ : Unit) => Except.ok (0 : Nat)) READ_WRITE
      = Except.ok (gateBody (fun _ _ _ => Except.ok 0) READ_WRITE) :=
  c9_wrap_returns_gated_handler (fun _ _ _ => Except.ok 0) READ_WRITE (by decide)

/-- C10: wrap time validates only that the requirement is not `--`: a
non-canonical requirement such as `"xx"` wraps successfully, and every
invocation under a canonical runtime mode returns the invalid-configuration
`HTTPError` (503) naming the requirement string — the runtime mode is
validated first, the wrapped handler is never invoked, and no maintenance
condition is raised. -/
theorem c10_invalid_requirement_deferred {Req Ctx Resp ρ : Type}
    (handler : Req → Env ρ → Ctx → Except JsError Resp)
    (req m : String)
    (hreq : modes.contains req = false)
    (hm : m = NO_READ_OR_WRITE ∨ m = READ_ONLY ∨ m = READ_WRITE)
    (request : Req) (env : Env ρ) (ctx : Ctx) (henv : env.MODE = m) :
    withMode handler req = Except.ok (gateBody handler req) ∧
    gateBody handler req request env ctx
      = Except.error (JsError.httpError (invalidModeMsg req) 503) := by
  have hne : req ≠ NO_READ_OR_WRITE := by
    intro h
    rw [h] at hreq
    exact absurd hreq (by decide)
  refine ⟨?_, ?_⟩
  · unfold withMode
    rw [if_neg hne]
  · rcases hm with rfl | rfl | rfl <;>
      (unfold gateBody enabled modeBits; rw [henv, hreq]; rfl)

/-- Witness for C10: requirement `"xx"` wraps, and under runtime mode `rw`
the invocation raises the configuration error naming `"xx"`. -/
theorem c10_invalid_requirement_deferred_witness :
    withMode (fun (_ : Unit) (_ : Env Unit) (_ : Unit) => Except.ok (0 : Nat)) "xx"
      = Except.ok (gateBody (fun _ _ _ => Except.ok 0) "xx") ∧
    gateBody (fun (_ : Unit) (_ : Env Unit) (_ : Unit) => Except.ok (0 : Nat)) "xx"
        () (Env.mk READ_WRITE ()) ()
      = Except.error (JsError.httpError (invalidModeMsg "xx") 503) :=
  c10_invalid_requirement_deferred (fun _ _ _ => Except.ok 0) "xx" READ_WRITE
    rfl (Or.inr (Or.inr rfl)) () (Env.mk READ_WRITE ()) () rfl

end Web3Maintenance
